import Mathlib

/-!
Shallow embedding of the rain-contingency replanning engine of the `pln`
repository (files `src/rain_change_proposal.py` and the `/rain/*` session
endpoints of `src/main.py`), together with proofs settling the frozen claims.

Modelling conventions:
* Python dicts for itinerary items / alternatives / proposals are translated
  to structures whose fields are `Option`-typed wherever the source accesses
  them with `dict.get` (a `none` models an absent key or an explicit `None`;
  the two behave identically on every code path the claims touch).
* Machine floats appear only inside the external place directory and in the
  haversine/rounding arithmetic; those are modelled as oracle fields of the
  `Env` structure (rational-valued abstract functions), since no claim
  depends on their numeric values.
* Python's `list.sort(key=...)` is a stable non-decreasing sort; a stable
  sort by a total preorder has a unique result, so it is modelled exactly by
  `List.insertionSort` (which Mathlib proves stable-sorted).
* `copy.deepcopy` becomes the identity on values: the session machine is
  modelled with value semantics, except that the one place where the source
  visibly mutates shared dicts (the renumbering loop of `apply_user_choices`
  runs before the history snapshot is taken) is modelled explicitly by
  `planAfterAliasMutation`.
-/

namespace Pln

/-- Python string truthiness on an optional string: a present, non-empty
string; models `if s:` on a value that is `None` or a `str`. -/
def truthyStr (o : Option String) : Option String :=
  o.bind (fun s => if s = "" then none else some s)

/-- Models Python `str.lower` (our data is ASCII plus Korean; Korean letters
are fixed points of lowercasing in both languages). -/
def pyLower (s : String) : String :=
  ⟨s.data.map Char.toLower⟩

/-- Models Python `str.strip()` with no argument: remove leading and
trailing whitespace. -/
def pyStrip (s : String) : String :=
  ⟨((s.data.dropWhile Char.isWhitespace).reverse.dropWhile
      Char.isWhitespace).reverse⟩

/-- Models Python `len(s)` (code points). -/
def pyLen (s : String) : Nat :=
  s.data.length

/-- Models Python `s[:n]` on a string for `0 ≤ n` (code points). -/
def pyStrTake (s : String) (n : Nat) : String :=
  ⟨s.data.take n⟩

/-- Models Python `needle in hay` on strings (substring containment). -/
def strContains (needle hay : String) : Bool :=
  decide (needle.toList <:+: hay.toList)

/-- Models Python `s.endswith(suf)`. -/
def strEndsWith (suf s : String) : Bool :=
  suf.toList.isSuffixOf s.toList

/-- Models Python `l[:k]` for an `int` slice bound `k` (negative bounds count
from the end). -/
def pySlice {α : Type} (k : Int) (l : List α) : List α :=
  if 0 ≤ k then l.take k.toNat else l.take (l.length - (-k).toNat)

/-- Models Python `l[i]` for an `int` index: `none` models the `IndexError`
exception. -/
def pyGet {α : Type} (l : List α) (i : Int) : Option α :=
  if 0 ≤ i then l.get? i.toNat
  else if (-i).toNat ≤ l.length then l.get? (l.length - (-i).toNat)
  else none

/-- Python dict-comprehension lookup `{f k : g k for k in xs}[key]`: the last
binding for a key wins. -/
def lastAssoc {α β : Type} [BEq β] (key : β) (pairs : List (β × α)) : Option α :=
  (pairs.reverse.find? (fun p => p.1 == key)).map (·.2)

/-- Models Python `str(o)` on an optional string (`None` prints as "None"),
as used by f-string interpolation. -/
def pyStrOpt (o : Option String) : String :=
  o.getD "None"

/-! ## Data model (dict shapes used by `rain_change_proposal.py`) -/

/-- An itinerary item: the keys of the item dicts that the core reads or
writes.  `none` models an absent key (or an explicit `None` value). -/
structure Item where
  index : Option Int
  type : Option String
  title : Option String
  description : Option String
  start_time : Option String
  end_time : Option String
  place_id : Option String
  lat : Option ℚ
  lng : Option ℚ
  rating : Option ℚ
deriving Repr, DecidableEq, Inhabited

/-- A plan dict: `{"itinerary": [...], "totals": {...}}`; the totals dict is
opaque to the core and modelled as an association list. -/
structure Plan where
  itinerary : List Item
  totals : List (String × ℚ)
deriving Repr, DecidableEq, Inhabited

/-- An alternative venue record as built by `fetch_indoor_alternatives`. -/
structure Alternative where
  title : Option String
  address : Option String
  place_id : Option String
  lat : Option ℚ
  lng : Option ℚ
  rating : Option ℚ
  type : Option String
  distance_km : ℚ
deriving Repr, DecidableEq, Inhabited

/-- The `original` sub-dict of a proposal candidate. -/
structure OriginalInfo where
  title : Option String
  start_time : Option String
  end_time : Option String
  description : Option String
  type : Option String
  place_id : Option String
  lat : Option ℚ
  lng : Option ℚ
deriving Repr, DecidableEq, Inhabited

/-- A proposal candidate entry `{index, original, alternatives}`. -/
structure PropCandidate where
  index : Option Int
  original : OriginalInfo
  alternatives : List Alternative
deriving Repr, DecidableEq, Inhabited

/-- A collected replacement candidate `{index, title, date, reason}`. -/
structure Cand where
  index : Option Int
  title : Option String
  date : Option String
  reason : String
deriving Repr, DecidableEq, Inhabited

/-- A kept record `{index, title, reason}`. -/
structure KeptRec where
  index : Option Int
  title : Option String
  reason : String
deriving Repr, DecidableEq, Inhabited

/-- Proposal metadata. -/
structure Meta where
  generated_at : String
  is_rainy : Bool
  rainy_dates : List String
  fallback_center_coords : Option String
  radius_km_for_alt : ℚ
  top_k : Int
  max_distance_km : Option ℚ
deriving Repr, DecidableEq, Inhabited

/-- A full proposal document. -/
structure Proposal where
  meta : Meta
  candidates : List PropCandidate
  kept : List KeptRec
deriving Repr, DecidableEq, Inhabited

/-- A user choice entry `{"index": ..., "choice": ...}` as consumed by
`apply_user_choices` (both values reach it as possibly-`None`). -/
structure Choice where
  index : Option Int
  choice : Option Int
deriving Repr, DecidableEq, Inhabited

/-- A place-details record from the directory (`get_place_details`). -/
structure PlaceDetails where
  name : Option String
  formatted_address : Option String
  rating : Option ℚ
  types : List String
deriving Repr, DecidableEq, Inhabited

/-- A summary search result from `search_places_nearby`. -/
structure RawPlace where
  name : Option String
  lat : Option ℚ
  lng : Option ℚ
  place_id : Option String
  vicinity : Option String
  rating : Option ℚ
deriving Repr, DecidableEq, Inhabited

/-- The external environment: the place-directory client plus the
floating-point library operations the source delegates to.  Oracle methods
that Python wraps in `try/except` return `Option`; `none` covers both an
exception and a `None` result (the code treats the two identically at every
call site). -/
structure Env where
  find_place_id : String → Option String
  get_place_details : String → Option PlaceDetails
  geocode_place_id : String → Option String
  get_coords_from_place_name : String → Option String
  search_places_nearby : String → String → Int → List RawPlace
  parseFloatPair : String → Option (ℚ × ℚ)
  formatCoords : ℚ → ℚ → String
  hav : ℚ → ℚ → ℚ → ℚ → ℚ
  pyRound2 : ℚ → ℚ
  now : String
  fromIsoKstDate : String → Option String

/-! ## Embedding of `rain_change_proposal.py` -/

/-- Keyword and type constants of `rain_change_proposal.py`. -/
def DEFAULT_INDOOR_KWS : List String :=
  ["박물관", "전시", "미술관", "과학관", "도서관", "쇼핑몰", "아쿠아리움", "실내 체험",
   "키즈카페", "갤러리", "볼링장", "VR", "만화카페", "보드게임", "카페", "영화관", "공연장"]

def DEFAULT_OUTDOOR_KWS : List String :=
  ["공원", "해변", "호수", "강", "산", "정상", "야외", "산책로", "전망대",
   "캠핑", "스카이워크", "정원", "폭포", "해수욕장", "야외전시", "전망"]

def HERITAGE_OUTDOOR_KWS : List String :=
  ["고택", "한옥", "전통가옥", "유적", "사적", "향교", "서원", "누정", "서당",
   "민속촌", "고건축", "문화재", "옛집", "고가", "고택군", "객사", "별당", "행궁",
   "전통마을", "정원", "한옥마을"]

def PROTECT_TYPES : List String := ["festival", "parking", "cafe", "restaurant"]

def PROTECT_KWS : List String :=
  ["역", "터미널", "정거장", "환승", "공항", "항만", "항구",
   "박물관", "미술관", "과학관", "도서관", "쇼핑몰", "아쿠아리움",
   "전시장", "컨벤션", "센터", "체육관", "공연장", "도청", "시청", "도서문화센터"]

/-- Google Places `details.types` treated as outdoor by the code. -/
def OUTDOOR_PLACE_TYPES : List String :=
  ["park", "campground", "zoo", "rv_park",
   "natural_feature", "tourist_attraction", "amusement_park"]

def HERITAGE_SUFFIX_CHARS : List String := ["대", "루", "각", "문"]

def HERITAGE_TOKENS : List String :=
  ["정자", "누각", "문루", "전망대",
   "서원", "향교", "사적", "유적", "고분",
   "성곽", "산성", "읍성", "궁", "고궁",
   "정원", "후원", "별서", "종묘", "사직",
   "탑", "비"]

/-- `_lc(s)`: `(s or "").strip().lower()`. -/
def lc (o : Option String) : String :=
  pyLower (pyStrip (o.getD ""))

/-- `_parse_kst_date(iso_str)`.  `env.fromIsoKstDate` is the oracle for the
stdlib chain `datetime.fromisoformat(s.replace("Z","+00:00"))` followed by the
KST conversion and `.date().isoformat()`; `none` models the `ValueError`
branch handled by the `except` clause. -/
def parseKstDate (fromIsoKstDate : String → Option String) (iso : Option String) :
    Option String :=
  match iso with
  | none => none
  | some s =>
    if s = "" then none
    else
      match fromIsoKstDate s with
      | some d => some d
      | none => if 10 ≤ pyLen s then some (pyStrTake s 10) else none

/-- `_title_looks_heritage(title)`. -/
def titleLooksHeritage (title : String) : Bool :=
  let t := pyStrip title
  if pyLen t ≤ 1 then false
  else if HERITAGE_SUFFIX_CHARS.any (fun suf => strEndsWith suf t) then true
  else if HERITAGE_TOKENS.any (fun tok => strContains tok t) then true
  else false

/-- `_to_latlng_str(lat, lng)`; the f-string float formatting is the
`formatCoords` oracle. -/
def toLatLngStr (formatCoords : ℚ → ℚ → String) (lat lng : Option ℚ) :
    Option String :=
  match lat, lng with
  | some a, some b => some (formatCoords a b)
  | _, _ => none

/-- The title-geocoding and fallback tail of
`_resolve_item_center_coords` (lines 117-126). -/
def resolveByTitleOrFallback (env : Env) (original : Item)
    (fallback_center : Option String) : Option String :=
  match truthyStr original.title with
  | some title =>
    match truthyStr (env.get_coords_from_place_name title) with
    | some coords => some coords
    | none => fallback_center
  | none => fallback_center

/-- `_resolve_item_center_coords(original, places_client, fallback_center)`:
coordinates, then place id geocoding, then title geocoding, then the
fallback; every intermediate result is truthiness-tested (`if s:`), and
client exceptions fall through to the next source. -/
def resolveItemCenterCoords (env : Env) (original : Item)
    (fallback_center : Option String) : Option String :=
  match truthyStr (toLatLngStr env.formatCoords original.lat original.lng) with
  | some s => some s
  | none =>
    match truthyStr original.place_id with
    | some pid =>
      match truthyStr (env.geocode_place_id pid) with
      | some coords => some coords
      | none => resolveByTitleOrFallback env original fallback_center
    | none => resolveByTitleOrFallback env original fallback_center

/-- `_is_protected(item, is_first, protect_titles)`: the boolean of the
source's pair is `Option.isSome` of the returned reason. -/
def isProtectedReason (item : Item) (is_first : Bool)
    (protect_titles : List String) : Option String :=
  if is_first then some "protected:first_item"
  else
    let ty := lc item.type
    if ty ∈ PROTECT_TYPES then some ("protected:type:" ++ ty)
    else
      let title := item.title.getD ""
      let desc := item.description.getD ""
      let joined := pyLower (title ++ " " ++ desc)
      let hit := PROTECT_KWS.filter (fun kw => strContains (pyLower kw) joined)
      if hit ≠ [] then some ("protected:keyword:" ++ String.intercalate "|" hit)
      else if title ∈ protect_titles then some ("protected:title_exact:" ++ title)
      else none

/-- The place id used by `_looks_outdoor` lines 164-170: the item's own
(truthy) `place_id`, else `find_place_id(title)`, then the `if pid:`
truthiness guard of line 171. -/
def looksOutdoorResolvedPid (env : Env) (item : Item) : Option String :=
  let title := item.title.getD ""
  truthyStr (match truthyStr item.place_id with
             | some p => some p
             | none => env.find_place_id title)

/-- `_looks_outdoor(item, places_client)`. -/
def looksOutdoor (env : Env) (item : Item) : Bool :=
  let ty := lc item.type
  if ty ∈ ["parking", "cafe", "restaurant"] then false
  else
    let title := item.title.getD ""
    let desc := item.description.getD ""
    let joined := pyLower (title ++ " " ++ desc ++ " " ++ ty)
    if titleLooksHeritage title then true
    else
      let typesHit :=
        match looksOutdoorResolvedPid env item with
        | some pid =>
          match env.get_place_details pid with
          | some details =>
            let types := details.types.map pyLower
            OUTDOOR_PLACE_TYPES.any (fun t => types.contains t)
          | none => false
        | none => false
      if typesHit then true
      else if DEFAULT_OUTDOOR_KWS.any (fun kw => strContains (pyLower kw) joined) then true
      else if HERITAGE_OUTDOOR_KWS.any (fun kw => strContains (pyLower kw) joined) then true
      else false

/-- The per-item loop of `collect_rain_change_candidates` (lines 215-236);
`i` is the `enumerate` counter. -/
def collectLoop (env : Env) (rainy_dates protect_titles : List String) :
    Nat → List Item → List Cand × List KeptRec
  | _, [] => ([], [])
  | i, item :: rest =>
    let date := parseKstDate env.fromIsoKstDate item.start_time
    let apply_today : Bool :=
      rainy_dates.isEmpty ||
        (match date with
         | some d => rainy_dates.contains d
         | none => false)
    match isProtectedReason item (i == 0) protect_titles with
    | some reason =>
      let (cs, ks) := collectLoop env rainy_dates protect_titles (i + 1) rest
      (cs, ⟨item.index, item.title, reason⟩ :: ks)
    | none =>
      let (cs, ks) := collectLoop env rainy_dates protect_titles (i + 1) rest
      if apply_today && looksOutdoor env item then
        (⟨item.index, item.title, date, "rain_outdoor_candidate"⟩ :: cs, ks)
      else
        (cs, ⟨item.index, item.title, "kept:not_applicable_or_indoor"⟩ :: ks)

/-- `collect_rain_change_candidates(plan, places_client, is_rainy=...,
rainy_dates=..., protect_titles=...)`.  The Python sets are modelled as
lists; only membership and emptiness are used. -/
def collect_rain_change_candidates (env : Env) (plan : Plan) (is_rainy : Bool)
    (rainy_dates protect_titles : List String) : List Cand × List KeptRec :=
  if !is_rainy then
    ([], plan.itinerary.map (fun it => ⟨it.index, it.title, "not_rainy"⟩))
  else
    collectLoop env rainy_dates protect_titles 0 plan.itinerary

/-- Python `int(q)`: truncation toward zero. -/
def pyIntTrunc (q : ℚ) : Int :=
  if 0 ≤ q then ⌊q⌋ else -⌊-q⌋

/-- The empty details dict used when a place id is falsy or the detail call
fails (`details = {}`). -/
def emptyDetails : PlaceDetails := ⟨none, none, none, []⟩

/-- The ordering used by `all_results.sort(key=lambda x: x["distance_km"])`. -/
def altLE (a b : Alternative) : Prop :=
  a.distance_km ≤ b.distance_km

instance : DecidableRel altLE :=
  fun a b => inferInstanceAs (Decidable (a.distance_km ≤ b.distance_km))

instance : IsTotal Alternative altLE := ⟨fun a b => le_total a.distance_km b.distance_km⟩

instance : IsTrans Alternative altLE := ⟨fun _ _ _ h h2 => le_trans h h2⟩

/-- The body of the inner `for r in raw:` loop of `fetch_indoor_alternatives`
(lines 270-298), acting on the `(all_results, seen_names)` accumulator. -/
def fetchStep (env : Env) (c_lat c_lng : ℚ) (avoid_titles : List String)
    (max_distance_km : Option ℚ) (acc : List Alternative × List String)
    (r : RawPlace) : List Alternative × List String :=
  let results := acc.1
  let seen := acc.2
  let name := r.name.getD "정보 없음"
  if avoid_titles.contains name || seen.contains name then acc
  else
    match r.lat, r.lng with
    | some lat, some lng =>
      let details : PlaceDetails :=
        (match truthyStr r.place_id with
         | some pid => env.get_place_details pid
         | none => none).getD emptyDetails
      let dist := env.hav c_lat c_lng lat lng
      if match max_distance_km with
         | some m => decide (m < dist)
         | none => false then acc
      else
        (results ++
          [{ title := some (details.name.getD name),
             address := some (details.formatted_address.getD (r.vicinity.getD "정보 없음")),
             place_id := r.place_id,
             lat := some lat, lng := some lng,
             rating := details.rating.orElse (fun _ => r.rating),
             type := some "place",
             distance_km := env.pyRound2 dist }],
         seen ++ [name])
    | _, _ => acc

/-- `fetch_indoor_alternatives(places_client, center_coords=...,
indoor_keywords=..., radius_km_for_alt=..., avoid_titles=..., top_k=...,
max_distance_km=...)`. -/
def fetch_indoor_alternatives (env : Env) (center_coords : String)
    (indoor_keywords : Option (List String)) (radius_km_for_alt : ℚ)
    (avoid_titles : List String) (top_k : Int) (max_distance_km : Option ℚ) :
    List Alternative :=
  let kws := match indoor_keywords with
             | some l => if l = [] then DEFAULT_INDOOR_KWS else l
             | none => DEFAULT_INDOOR_KWS
  match env.parseFloatPair center_coords with
  | none => []
  | some (c_lat, c_lng) =>
    let radius_m := pyIntTrunc (radius_km_for_alt * 1000)
    let all_results :=
      (kws.foldl
        (fun acc kw =>
          (env.search_places_nearby center_coords kw radius_m).foldl
            (fetchStep env c_lat c_lng avoid_titles max_distance_km) acc)
        ([], [])).1
    pySlice top_k (all_results.insertionSort altLE)

/-- The `original` sub-dict assembled by `build_rain_change_proposal`. -/
def mkOriginalInfo (it : Item) : OriginalInfo :=
  ⟨it.title, it.start_time, it.end_time, it.description, it.type,
   it.place_id, it.lat, it.lng⟩

/-- `build_rain_change_proposal(plan, places_client, is_rainy=...,
center_coords=..., rainy_dates=..., protect_titles=..., radius_km_for_alt=...,
indoor_keywords=..., top_k=..., max_distance_km=...)` (the `save_to` file
side channel is omitted). -/
def build_rain_change_proposal (env : Env) (plan : Plan) (is_rainy : Bool)
    (center_coords : Option String) (rainy_dates protect_titles : List String)
    (radius_km_for_alt : ℚ) (indoor_keywords : Option (List String))
    (top_k : Int) (max_distance_km : Option ℚ) : Proposal :=
  let collected :=
    collect_rain_change_candidates env plan is_rainy rainy_dates protect_titles
  let candidates := collected.1
  let kept := collected.2
  let existing_titles := plan.itinerary.map (fun it => it.title.getD "")
  let proposal_items : List PropCandidate :=
    if is_rainy then
      candidates.filterMap (fun c =>
        match plan.itinerary.find? (fun it => it.index == c.index) with
        | none => none
        | some original =>
          match truthyStr (resolveItemCenterCoords env original center_coords) with
          | none => none
          | some victim_center =>
            some { index := c.index,
                   original := mkOriginalInfo original,
                   alternatives :=
                     fetch_indoor_alternatives env victim_center indoor_keywords
                       radius_km_for_alt existing_titles top_k max_distance_km })
    else []
  { meta := { generated_at := env.now,
              is_rainy := is_rainy,
              rainy_dates := (rainy_dates.dedup.insertionSort (· ≤ ·)),
              fallback_center_coords := center_coords,
              radius_km_for_alt := radius_km_for_alt,
              top_k := top_k,
              max_distance_km := max_distance_km },
    candidates := proposal_items,
    kept := kept }

/-! ## Embedding of `apply_user_choices` -/

/-- The replacement dict `{**item, ...}` built at lines 412-421. -/
def replacedItem (item : Item) (alt : Alternative) : Item :=
  { item with
    type := if item.type = some "cafe" ∨ item.type = some "restaurant" then item.type
            else some (alt.type.getD "place"),
    title := alt.title,
    description := some ("우천 대안 적용 · 주소: " ++ pyStrOpt alt.address),
    place_id := alt.place_id,
    lat := alt.lat,
    lng := alt.lng,
    rating := alt.rating }

/-- `index_to_choice[idx]` with dict semantics (`none` = key absent). -/
def lookupChoice (choices : List Choice) (idx : Option Int) : Option (Option Int) :=
  lastAssoc idx (choices.map (fun c => (c.index, c.choice)))

/-- `idx_to_alts[idx]` with dict semantics (`none` = key absent). -/
def lookupAlts (cands : List PropCandidate) (idx : Option Int) :
    Option (List Alternative) :=
  lastAssoc idx (cands.map (fun c => (c.index, c.alternatives)))

/-- The selection decision for one item (lines 405-411): `some alt` when the
item will be replaced by `alt`, `none` when the original is appended. -/
def applyDecision (proposal : Proposal) (choices : List Choice) (item : Item) :
    Option Alternative :=
  match lookupChoice choices item.index, lookupAlts proposal.candidates item.index with
  | some choiceOpt, some alts =>
    match choiceOpt with
    | some choice =>
      if 0 ≤ choice ∧ choice < (alts.length : Int) then alts.get? choice.toNat
      else none
    | none => none
  | _, _ => none

/-- One item of the output list before renumbering. -/
def applyItem (proposal : Proposal) (choices : List Choice) (item : Item) : Item :=
  match applyDecision proposal choices item with
  | some alt => replacedItem item alt
  | none => item

/-- The renumbering loop `for i, it in enumerate(..., start=1): it["index"] = i`. -/
def renumFrom : Int → List Item → List Item
  | _, [] => []
  | n, it :: rest => { it with index := some n } :: renumFrom (n + 1) rest

/-- `apply_user_choices(plan, proposal, choices)` (the `output_path` file side
channel is omitted). -/
def apply_user_choices (plan : Plan) (proposal : Proposal)
    (choices : List Choice) : Plan :=
  { itinerary := renumFrom 1 (plan.itinerary.map (applyItem proposal choices)),
    totals := plan.totals }

/-! ## Embedding of the `/rain/*` session endpoints of `src/main.py`

The module-level `_SESSION_STORE` dict is modelled as an association list in
which an assignment prepends (lookups take the newest binding).  `copy.deepcopy`
is the identity on values.  The one observable consequence of Python's
reference semantics is modelled explicitly: `apply_user_choices` appends the
*same* item dicts to its output for non-replaced items and then renumbers them
in place, so by the time `rain_apply_choice` deep-copies the current plan into
`history` (line 389, after the call at line 383), the non-replaced items of
that plan already carry the new 1..N index values.  `planAfterAliasMutation`
computes the value of the session's plan object after that in-place
renumbering. -/

structure Session where
  plan : Plan
  proposal : Option Proposal
  original_plan : Plan
  history : List Plan
deriving Repr, DecidableEq, Inhabited

/-- The session table `_SESSION_STORE`. -/
abbrev Store := List (String × Session)

/-- `_SESSION_STORE.get(session_id)`. -/
def lookupStore (st : Store) (sid : String) : Option Session :=
  ((st : List (String × Session)).find? (fun p => p.1 == sid)).map (·.2)

/-- `_SESSION_STORE[session_id] = s`. -/
def insertStore (st : Store) (sid : String) (s : Session) : Store :=
  ((sid, s) :: (st : List (String × Session)) : List (String × Session))

/-- The `{}` default of `proposal = sess.get("proposal") or {}`: its
`.get("candidates") or []` is the empty list. -/
def emptyProposal : Proposal := { meta := default, candidates := [], kept := [] }

/-- The value of the caller's plan object after `apply_user_choices` has run:
items that were *not* replaced are shared with the output list and have been
renumbered in place to their 1-based display position; items that were
replaced were copied (`{**item, ...}`) so their originals keep their old
index. -/
def aliasMutLoop (proposal : Proposal) (choices : List Choice) :
    Int → List Item → List Item
  | _, [] => []
  | n, it :: rest =>
    (if (applyDecision proposal choices it).isSome then it
     else { it with index := some n }) :: aliasMutLoop proposal choices (n + 1) rest

def planAfterAliasMutation (plan : Plan) (proposal : Proposal)
    (choices : List Choice) : Plan :=
  { itinerary := aliasMutLoop proposal choices 1 plan.itinerary,
    totals := plan.totals }

/-- The session-store effect of `rain_check` (lines 272-283 and 326-337): the
submitted plan and the proposal computed before the lock (`none` in the
no-rainy-dates branch) are stored; a first call additionally snapshots the
submitted plan as `original_plan` with an empty history. -/
def rainCheckStore (st : Store) (sid : String) (plan : Plan)
    (proposal : Option Proposal) : Store :=
  match lookupStore st sid with
  | none =>
    insertStore st sid
      { plan := plan, proposal := proposal, original_plan := plan, history := [] }
  | some sess =>
    insertStore st sid { sess with plan := plan, proposal := proposal }

/-- `rain_apply_choice` (lines 355-404).  The error strings come from the
`HTTPException` details; "IndexError" models an uncaught Python `IndexError`
surfacing as the generic 500 handler.  A session's stored plan dict always
holds the "itinerary"/"totals" keys, so the `not sess.get("plan")` truthiness
guard of line 365 cannot fire for an existing session and only the existence
check is modelled. -/
def rainApplyChoice (st : Store) (sid : String)
    (candidate_index alternative_index : Int) : Store × Except String Plan :=
  match lookupStore st sid with
  | none => (st, .error "session not found or plan missing")
  | some sess =>
    let proposal := sess.proposal.getD emptyProposal
    let candidates := proposal.candidates
    if (candidates.length : Int) ≤ candidate_index then
      (st, .error "candidate_index out of range")
    else
      match pyGet candidates candidate_index with
      | none => (st, .error "IndexError")
      | some candidate =>
        let alternatives := candidate.alternatives
        if (alternatives.length : Int) ≤ alternative_index then
          (st, .error "alternative_index out of range")
        else
          let choices : List Choice :=
            [{ index := candidate.index, choice := some alternative_index }]
          let new_plan := apply_user_choices sess.plan proposal choices
          let st' := insertStore st sid
            { sess with
              history := sess.history ++ [planAfterAliasMutation sess.plan proposal choices],
              plan := new_plan }
          match pyGet alternatives alternative_index with
          | none => (st', .error "IndexError")
          | some _ => (st', .ok new_plan)

/-- The choice-collection loop of `rain_llm_apply` (lines 448-465) over the
index pairs returned by the intent resolver; the `Except` models an
`IndexError` escaping the loop, and the `Nat` counts `applied_details`. -/
def llmCollectChoices (candidates : List PropCandidate) :
    List (Int × Int) → Except String (List Choice × Nat)
  | [] => .ok ([], 0)
  | (candidate_idx, alternative_idx) :: rest =>
    if candidate_idx < (candidates.length : Int) then
      match pyGet candidates candidate_idx with
      | none => .error "IndexError"
      | some candidate =>
        if alternative_idx < (candidate.alternatives.length : Int) then
          match pyGet candidate.alternatives alternative_idx with
          | none => .error "IndexError"
          | some _ =>
            match llmCollectChoices candidates rest with
            | .error e => .error e
            | .ok (cs, n) =>
              .ok ({ index := candidate.index, choice := some alternative_idx } :: cs, n + 1)
        else llmCollectChoices candidates rest
    else llmCollectChoices candidates rest

/-- `rain_llm_apply` (lines 419-486), with the LLM's validated selections
(`decide_alternatives_with_llm`) supplied as an oracle input.  The history is
pushed only when at least one selection was applied, but the plan is replaced
by the `apply_user_choices` output in either case. -/
def rainLlmApply (st : Store) (sid : String) (selections : List (Int × Int)) :
    Store × Except String Plan :=
  match lookupStore st sid with
  | none => (st, .error "session not found or plan missing")
  | some sess =>
    let proposal := sess.proposal.getD emptyProposal
    let candidates := proposal.candidates
    if candidates.isEmpty then (st, .ok sess.plan)
    else if selections.isEmpty then (st, .ok sess.plan)
    else
      match llmCollectChoices candidates selections with
      | .error e => (st, .error e)
      | .ok (choices, applied) =>
        let new_plan := apply_user_choices sess.plan proposal choices
        let history' :=
          if applied ≠ 0 then
            sess.history ++ [planAfterAliasMutation sess.plan proposal choices]
          else sess.history
        (insertStore st sid { sess with history := history', plan := new_plan },
         .ok new_plan)

/-- `rain_rollback` (lines 499-524). -/
def rainRollback (st : Store) (sid : String) : Store × Except String Plan :=
  match lookupStore st sid with
  | none => (st, .error "session not found")
  | some sess =>
    match sess.history.getLast? with
    | none => (st, .error "no history to rollback")
    | some previous_plan =>
      (insertStore st sid
        { sess with plan := previous_plan, history := sess.history.dropLast },
       .ok previous_plan)

/-- `rain_reset` (lines 541-567).  A stored `original_plan` dict always holds
the "itinerary"/"totals" keys and is therefore truthy, so the
`not original_plan` guard of line 552 cannot fire for a session created by
`rain_check` and is not modelled. -/
def rainReset (st : Store) (sid : String) : Store × Except String Plan :=
  match lookupStore st sid with
  | none => (st, .error "session not found")
  | some sess =>
    (insertStore st sid
      { sess with plan := sess.original_plan, history := [], proposal := none },
     .ok sess.original_plan)

/-- One call against the session store (the proposal handed to `check` and
the intent-resolver output handed to `llmApply` are oracle inputs computed
before the lock is taken). -/
inductive Op where
  | check (sid : String) (plan : Plan) (proposal : Option Proposal)
  | applyChoice (sid : String) (candidate_index alternative_index : Int)
  | llmApply (sid : String) (selections : List (Int × Int))
  | rollback (sid : String)
  | reset (sid : String)

/-- The store after one call (responses discarded). -/
def runOp (st : Store) : Op → Store
  | .check sid plan proposal => rainCheckStore st sid plan proposal
  | .applyChoice sid ci ai => (rainApplyChoice st sid ci ai).1
  | .llmApply sid sels => (rainLlmApply st sid sels).1
  | .rollback sid => (rainRollback st sid).1
  | .reset sid => (rainReset st sid).1

/-! ## Shared helper definitions and lemmas for the theorems -/

deriving instance DecidableEq for Except

/-- An environment in which every directory call fails and every numeric
oracle is trivial; used for concrete instantiations. -/
def trivialEnv : Env :=
  { find_place_id := fun _ => none
    get_place_details := fun _ => none
    geocode_place_id := fun _ => none
    get_coords_from_place_name := fun _ => none
    search_places_nearby := fun _ _ _ => []
    parseFloatPair := fun _ => none
    formatCoords := fun _ _ => ""
    hav := fun _ _ _ _ => 0
    pyRound2 := fun q => q
    now := ""
    fromIsoKstDate := fun _ => none }

/-- The start/end timestamps of an item. -/
def itemTimes (it : Item) : Option String × Option String :=
  (it.start_time, it.end_time)

/-- A choice entry that, against this proposal, takes the
keep-the-original path of `apply_user_choices` (its `choice` is missing,
`-1`/negative, or not a valid index into the matching candidate's
alternatives). -/
def noOpChoice (proposal : Proposal) (c : Choice) : Bool :=
  match lookupAlts proposal.candidates c.index, c.choice with
  | some alts, some v => !(decide (0 ≤ v) && decide (v < (alts.length : Int)))
  | _, _ => true

theorem itemTimes_applyItem (proposal : Proposal) (choices : List Choice)
    (it : Item) : itemTimes (applyItem proposal choices it) = itemTimes it := by
  unfold applyItem
  cases applyDecision proposal choices it <;> rfl

theorem renumFrom_length : ∀ (n : Int) (l : List Item),
    (renumFrom n l).length = l.length
  | _, [] => rfl
  | n, _ :: rest => by simp [renumFrom, renumFrom_length (n + 1) rest]

theorem renumFrom_map_itemTimes : ∀ (n : Int) (l : List Item),
    (renumFrom n l).map itemTimes = l.map itemTimes
  | _, [] => rfl
  | n, it :: rest => by
    simp [renumFrom, renumFrom_map_itemTimes (n + 1) rest, itemTimes]

theorem map_itemTimes_applyItem (proposal : Proposal) (choices : List Choice) :
    ∀ l : List Item,
      (l.map (applyItem proposal choices)).map itemTimes = l.map itemTimes
  | [] => rfl
  | it :: rest => by
    simp [itemTimes_applyItem, map_itemTimes_applyItem proposal choices rest]

theorem lookupChoice_mem {choices : List Choice} {idx : Option Int}
    {co : Option Int} (h : lookupChoice choices idx = some co) :
    ∃ c, c ∈ choices ∧ c.index = idx ∧ c.choice = co := by
  unfold lookupChoice lastAssoc at h
  cases hf : ((choices.map fun c => (c.index, c.choice)).reverse.find?
      (fun p => p.1 == idx)) with
  | none => rw [hf] at h; exact Option.noConfusion h
  | some p =>
    rw [hf] at h
    have hmem := List.mem_of_find?_eq_some hf
    have hpred := List.find?_some hf
    rw [List.mem_reverse] at hmem
    obtain ⟨c, hc, hcp⟩ := List.mem_map.mp hmem
    refine ⟨c, hc, ?_, ?_⟩
    · have : p.1 = idx := by exact_mod_cast beq_iff_eq.mp hpred
      rw [← hcp] at this
      exact this
    · rw [← hcp] at h
      exact Option.some_injective _ h

theorem applyDecision_of_noOp {proposal : Proposal} {choices : List Choice}
    (h : choices.all (noOpChoice proposal) = true) (item : Item) :
    applyDecision proposal choices item = none := by
  unfold applyDecision
  cases hc : lookupChoice choices item.index with
  | none => rfl
  | some co =>
    cases ha : lookupAlts proposal.candidates item.index with
    | none => rfl
    | some alts =>
      cases co with
      | none => rfl
      | some v =>
        obtain ⟨c, hmem, hidx, hch⟩ := lookupChoice_mem hc
        have hno := List.all_eq_true.mp h c hmem
        unfold noOpChoice at hno
        rw [hidx, ha, hch] at hno
        simp only [Bool.not_eq_true', Bool.and_eq_false_iff, decide_eq_false_iff_not] at hno
        have hcond : ¬(0 ≤ v ∧ v < (alts.length : Int)) := by
          intro hcontra
          rcases hno with h1 | h1
          · exact h1 hcontra.1
          · exact h1 hcontra.2
        simp only [if_neg hcond]

theorem map_applyItem_of_noOp {proposal : Proposal} {choices : List Choice}
    (h : choices.all (noOpChoice proposal) = true) :
    ∀ l : List Item, l.map (applyItem proposal choices) = l
  | [] => rfl
  | it :: rest => by
    have hdec := applyDecision_of_noOp h it
    have hit : applyItem proposal choices it = it := by
      unfold applyItem
      rw [hdec]
    simp [hit, map_applyItem_of_noOp h rest]

theorem pySlice_sublist {α : Type} (k : Int) (l : List α) :
    List.Sublist (pySlice k l) l := by
  unfold pySlice
  split <;> exact List.take_sublist _ _

theorem mem_pySlice {α : Type} {k : Int} {l : List α} {a : α}
    (h : a ∈ pySlice k l) : a ∈ l :=
  (pySlice_sublist k l).subset h

theorem length_pySlice_le {α : Type} {k : Int} (hk : 0 ≤ k) (l : List α) :
    ((pySlice k l).length : Int) ≤ k := by
  unfold pySlice
  rw [if_pos hk, List.length_take]
  omega

theorem truthyStr_eq_some {o : Option String} {s : String}
    (h : truthyStr o = some s) : o = some s ∧ s ≠ "" := by
  unfold truthyStr at h
  cases o with
  | none => exact Option.noConfusion h
  | some v =>
    by_cases hv : v = ""
    · simp [hv] at h
    · simp [hv] at h
      exact ⟨by rw [h], h ▸ hv⟩

theorem fetch_indoor_alternatives_sorted (env : Env) (center_coords : String)
    (indoor_keywords : Option (List String)) (radius_km_for_alt : ℚ)
    (avoid_titles : List String) (top_k : Int) (max_distance_km : Option ℚ) :
    List.Sorted altLE
      (fetch_indoor_alternatives env center_coords indoor_keywords
        radius_km_for_alt avoid_titles top_k max_distance_km) := by
  unfold fetch_indoor_alternatives
  cases hp : env.parseFloatPair center_coords with
  | none => simp only [hp]; exact List.sorted_nil
  | some p =>
    obtain ⟨c_lat, c_lng⟩ := p
    simp only [hp]
    exact (List.sorted_insertionSort altLE _).sublist (pySlice_sublist _ _)

theorem fetch_indoor_alternatives_length (env : Env) (center_coords : String)
    (indoor_keywords : Option (List String)) (radius_km_for_alt : ℚ)
    (avoid_titles : List String) {top_k : Int} (max_distance_km : Option ℚ)
    (hk : 0 ≤ top_k) :
    ((fetch_indoor_alternatives env center_coords indoor_keywords
        radius_km_for_alt avoid_titles top_k max_distance_km).length : Int) ≤
      top_k := by
  unfold fetch_indoor_alternatives
  cases hp : env.parseFloatPair center_coords with
  | none => simp only [hp]; simpa using hk
  | some p =>
    obtain ⟨c_lat, c_lng⟩ := p
    simp only [hp]
    exact length_pySlice_le hk _

/-- Every candidate of a built proposal has its alternatives list produced by
`fetch_indoor_alternatives` against the itinerary's title set. -/
theorem build_candidate_alternatives (env : Env) (plan : Plan) (is_rainy : Bool)
    (center_coords : Option String) (rainy_dates protect_titles : List String)
    (radius_km_for_alt : ℚ) (indoor_keywords : Option (List String))
    (top_k : Int) (max_distance_km : Option ℚ) {c : PropCandidate}
    (hc : c ∈ (build_rain_change_proposal env plan is_rainy center_coords
        rainy_dates protect_titles radius_km_for_alt indoor_keywords top_k
        max_distance_km).candidates) :
    ∃ victim_center,
      c.alternatives =
        fetch_indoor_alternatives env victim_center indoor_keywords
          radius_km_for_alt (plan.itinerary.map (fun it => it.title.getD ""))
          top_k max_distance_km := by
  unfold build_rain_change_proposal at hc
  simp only [] at hc
  split at hc
  · obtain ⟨a, _, heq⟩ := List.mem_filterMap.mp hc
    split at heq
    · exact Option.noConfusion heq
    · split at heq
      · exact Option.noConfusion heq
      · rename_i victim_center hts
        refine ⟨victim_center, ?_⟩
        have h := Option.some_injective _ heq
        rw [← h]
  · exact absurd hc (List.not_mem_nil c)

/-- The invariant maintained by the collection loop of
`fetch_indoor_alternatives`: an accepted alternative can carry a title from
`avoid_titles` only if that exact name was supplied by the place-details
record of its (truthy) place id — the duplicate check of line 272 sees only
the summary name. -/
def detailNamedOnly (env : Env) (avoid_titles : List String)
    (a : Alternative) : Prop :=
  ∀ t, a.title = some t → t ∈ avoid_titles →
    ∃ p, a.place_id = some p ∧ p ≠ "" ∧
      ∃ d, env.get_place_details p = some d ∧ d.name = some t

theorem fetchStep_detailNamedOnly (env : Env) (c_lat c_lng : ℚ)
    (avoid_titles : List String) (max_distance_km : Option ℚ)
    (acc : List Alternative × List String) (r : RawPlace)
    (hacc : ∀ a ∈ acc.1, detailNamedOnly env avoid_titles a) :
    ∀ a ∈ (fetchStep env c_lat c_lng avoid_titles max_distance_km acc r).1,
      detailNamedOnly env avoid_titles a := by
  intro a ha
  unfold fetchStep at ha
  by_cases hguard :
      (avoid_titles.contains (r.name.getD "정보 없음") ||
        acc.2.contains (r.name.getD "정보 없음")) = true
  · rw [if_pos hguard] at ha
    exact hacc a ha
  · rw [if_neg hguard] at ha
    cases hlat : r.lat with
    | none => rw [hlat] at ha; exact hacc a ha
    | some lat =>
      cases hlng : r.lng with
      | none => rw [hlat, hlng] at ha; exact hacc a ha
      | some lng =>
        rw [hlat, hlng] at ha
        simp only [] at ha
        split at ha
        · exact hacc a ha
        · rw [List.mem_append] at ha
          rcases ha with ha | ha
          · exact hacc a ha
          · rw [List.mem_singleton] at ha
            subst ha
            intro t ht hmem
            simp only [Option.some_inj] at ht
            have hnotin : (r.name.getD "정보 없음") ∉ avoid_titles := by
              intro hin
              apply hguard
              rw [Bool.or_eq_true]
              exact Or.inl (List.elem_eq_true_of_mem hin)
            cases hts : truthyStr r.place_id with
            | none =>
              rw [hts] at ht
              have ht2 : r.name.getD "정보 없음" = t := ht
              exact absurd (ht2 ▸ hmem) hnotin
            | some pid =>
              obtain ⟨hpid, hne⟩ := truthyStr_eq_some hts
              rw [hts] at ht
              have ht2 : ((env.get_place_details pid).getD
                  emptyDetails).name.getD (r.name.getD "정보 없음") = t := ht
              cases hgd : env.get_place_details pid with
              | none =>
                rw [hgd] at ht2
                have ht3 : r.name.getD "정보 없음" = t := ht2
                exact absurd (ht3 ▸ hmem) hnotin
              | some d =>
                rw [hgd] at ht2
                have ht3 : d.name.getD (r.name.getD "정보 없음") = t := ht2
                cases hdn : d.name with
                | none =>
                  rw [hdn] at ht3
                  have ht4 : r.name.getD "정보 없음" = t := ht3
                  exact absurd (ht4 ▸ hmem) hnotin
                | some nm =>
                  rw [hdn] at ht3
                  have ht4 : nm = t := ht3
                  exact ⟨pid, hpid, hne, d, hgd, by rw [hdn, ht4]⟩

theorem foldl_fetchStep_detailNamedOnly (env : Env) (c_lat c_lng : ℚ)
    (avoid_titles : List String) (max_distance_km : Option ℚ) :
    ∀ (raws : List RawPlace) (acc : List Alternative × List String),
      (∀ a ∈ acc.1, detailNamedOnly env avoid_titles a) →
      ∀ a ∈ (raws.foldl
          (fetchStep env c_lat c_lng avoid_titles max_distance_km) acc).1,
        detailNamedOnly env avoid_titles a
  | [], _, hacc => hacc
  | r :: rest, acc, hacc =>
    foldl_fetchStep_detailNamedOnly env c_lat c_lng avoid_titles
      max_distance_km rest _
      (fetchStep_detailNamedOnly env c_lat c_lng avoid_titles max_distance_km
        acc r hacc)

theorem foldl_kws_detailNamedOnly (env : Env) (center_coords : String)
    (c_lat c_lng : ℚ) (avoid_titles : List String)
    (max_distance_km : Option ℚ) (radius_m : Int) :
    ∀ (kws : List String) (acc : List Alternative × List String),
      (∀ a ∈ acc.1, detailNamedOnly env avoid_titles a) →
      ∀ a ∈ (kws.foldl
          (fun acc kw =>
            (env.search_places_nearby center_coords kw radius_m).foldl
              (fetchStep env c_lat c_lng avoid_titles max_distance_km) acc)
          acc).1,
        detailNamedOnly env avoid_titles a
  | [], _, hacc => hacc
  | kw :: rest, acc, hacc =>
    foldl_kws_detailNamedOnly env center_coords c_lat c_lng avoid_titles
      max_distance_km radius_m rest _
      (foldl_fetchStep_detailNamedOnly env c_lat c_lng avoid_titles
        max_distance_km (env.search_places_nearby center_coords kw radius_m)
        acc hacc)

theorem fetch_indoor_alternatives_detailNamedOnly (env : Env)
    (center_coords : String) (indoor_keywords : Option (List String))
    (radius_km_for_alt : ℚ) (avoid_titles : List String) (top_k : Int)
    (max_distance_km : Option ℚ) :
    ∀ a ∈ fetch_indoor_alternatives env center_coords indoor_keywords
        radius_km_for_alt avoid_titles top_k max_distance_km,
      detailNamedOnly env avoid_titles a := by
  unfold fetch_indoor_alternatives
  cases hp : env.parseFloatPair center_coords with
  | none => intro a ha; exact absurd ha (List.not_mem_nil a)
  | some p =>
    obtain ⟨c_lat, c_lng⟩ := p
    simp only [hp]
    intro a ha
    have ha2 := (List.mem_insertionSort altLE).mp (mem_pySlice ha)
    exact foldl_kws_detailNamedOnly env center_coords c_lat c_lng avoid_titles
      max_distance_km _ _ ([], [])
      (fun a ha => absurd ha (List.not_mem_nil a)) a ha2

theorem lookupStore_insert (st : Store) (sid : String) (s : Session) :
    lookupStore (insertStore st sid s) sid = some s := by
  unfold lookupStore insertStore
  simp [List.find?]

theorem lookupStore_insert_ne (st : Store) (sid sid2 : String) (s : Session)
    (h : sid2 ≠ sid) :
    lookupStore (insertStore st sid2 s) sid = lookupStore st sid := by
  unfold lookupStore insertStore
  have hb : (sid2 == sid) = false := beq_eq_false_iff_ne.mpr h
  simp [List.find?, hb]

/-- Inserting a session whose `original_plan` agrees with whatever the target
key held (or inserting under a previously absent key) preserves every
existing session's `original_plan`. -/
theorem lookup_insert_preserves_original {st : Store} {sid : String}
    {s : Session} (sid2 : String) (s2 : Session)
    (h : lookupStore st sid = some s)
    (hcase : lookupStore st sid2 = none ∨
      ∃ sess, lookupStore st sid2 = some sess ∧
        s2.original_plan = sess.original_plan) :
    ∃ s', lookupStore (insertStore st sid2 s2) sid = some s' ∧
      s'.original_plan = s.original_plan := by
  by_cases he : sid2 = sid
  · subst he
    rcases hcase with hn | ⟨sess, hsess, horig⟩
    · rw [h] at hn; exact Option.noConfusion hn
    · rw [h] at hsess
      have : sess = s := Option.some_injective _ hsess.symm
      subst this
      exact ⟨s2, lookupStore_insert st sid2 s2, horig⟩
  · exact ⟨s, by rw [lookupStore_insert_ne st sid sid2 s2 he]; exact h, rfl⟩

theorem rainCheckStore_preserves_original {st : Store} {sid : String}
    {s : Session} (sid2 : String) (plan : Plan) (proposal : Option Proposal)
    (h : lookupStore st sid = some s) :
    ∃ s', lookupStore (rainCheckStore st sid2 plan proposal) sid = some s' ∧
      s'.original_plan = s.original_plan := by
  unfold rainCheckStore
  cases hl : lookupStore st sid2 with
  | none => exact lookup_insert_preserves_original sid2 _ h (Or.inl hl)
  | some sess =>
    exact lookup_insert_preserves_original sid2 _ h (Or.inr ⟨sess, hl, rfl⟩)

theorem rainApplyChoice_preserves_original {st : Store} {sid : String}
    {s : Session} (sid2 : String) (ci ai : Int)
    (h : lookupStore st sid = some s) :
    ∃ s', lookupStore (rainApplyChoice st sid2 ci ai).1 sid = some s' ∧
      s'.original_plan = s.original_plan := by
  unfold rainApplyChoice
  cases hl : lookupStore st sid2 with
  | none => exact ⟨s, h, rfl⟩
  | some sess =>
    simp only []
    split
    · exact ⟨s, h, rfl⟩
    · split
      · exact ⟨s, h, rfl⟩
      · split
        · exact ⟨s, h, rfl⟩
        · split <;>
            exact lookup_insert_preserves_original sid2 _ h
              (Or.inr ⟨sess, hl, rfl⟩)

theorem rainLlmApply_preserves_original {st : Store} {sid : String}
    {s : Session} (sid2 : String) (selections : List (Int × Int))
    (h : lookupStore st sid = some s) :
    ∃ s', lookupStore (rainLlmApply st sid2 selections).1 sid = some s' ∧
      s'.original_plan = s.original_plan := by
  unfold rainLlmApply
  cases hl : lookupStore st sid2 with
  | none => exact ⟨s, h, rfl⟩
  | some sess =>
    simp only []
    split
    · exact ⟨s, h, rfl⟩
    · split
      · exact ⟨s, h, rfl⟩
      · split
        · exact ⟨s, h, rfl⟩
        · exact lookup_insert_preserves_original sid2 _ h
            (Or.inr ⟨sess, hl, rfl⟩)

theorem rainRollback_preserves_original {st : Store} {sid : String}
    {s : Session} (sid2 : String)
    (h : lookupStore st sid = some s) :
    ∃ s', lookupStore (rainRollback st sid2).1 sid = some s' ∧
      s'.original_plan = s.original_plan := by
  unfold rainRollback
  cases hl : lookupStore st sid2 with
  | none => exact ⟨s, h, rfl⟩
  | some sess =>
    simp only []
    split
    · exact ⟨s, h, rfl⟩
    · exact lookup_insert_preserves_original sid2 _ h (Or.inr ⟨sess, hl, rfl⟩)

theorem rainReset_preserves_original {st : Store} {sid : String}
    {s : Session} (sid2 : String)
    (h : lookupStore st sid = some s) :
    ∃ s', lookupStore (rainReset st sid2).1 sid = some s' ∧
      s'.original_plan = s.original_plan := by
  unfold rainReset
  cases hl : lookupStore st sid2 with
  | none => exact ⟨s, h, rfl⟩
  | some sess =>
    exact lookup_insert_preserves_original sid2 _ h (Or.inr ⟨sess, hl, rfl⟩)

theorem runOp_preserves_original {st : Store} {sid : String} {s : Session}
    (op : Op) (h : lookupStore st sid = some s) :
    ∃ s', lookupStore (runOp st op) sid = some s' ∧
      s'.original_plan = s.original_plan := by
  cases op with
  | check sid2 plan proposal => exact rainCheckStore_preserves_original sid2 plan proposal h
  | applyChoice sid2 ci ai => exact rainApplyChoice_preserves_original sid2 ci ai h
  | llmApply sid2 sels => exact rainLlmApply_preserves_original sid2 sels h
  | rollback sid2 => exact rainRollback_preserves_original sid2 h
  | reset sid2 => exact rainReset_preserves_original sid2 h

theorem foldl_runOp_preserves_original {sid : String} :
    ∀ (ops : List Op) (st : Store) (s : Session),
      lookupStore st sid = some s →
      ∃ s', lookupStore (ops.foldl runOp st) sid = some s' ∧
        s'.original_plan = s.original_plan
  | [], _, s, h => ⟨s, h, rfl⟩
  | op :: rest, st, s, h => by
    obtain ⟨s1, h1, ho1⟩ := runOp_preserves_original op h
    obtain ⟨s', h', ho'⟩ := foldl_runOp_preserves_original rest _ s1 h1
    exact ⟨s', h', ho'.trans ho1⟩

/-! ## Claim theorems -/

/-- C1: for every plan and proposal, `apply_user_choices` with an empty
choices list, or with a `-1`/out-of-range choice for every candidate index
(every entry takes the keep-original path), returns an itinerary whose items
are the input items unchanged except that index fields are renumbered 1..N in
display order, with the totals carried over; no item is replaced. -/
theorem apply_user_choices_noop (plan : Plan) (proposal : Proposal)
    (choices : List Choice)
    (h : choices.all (noOpChoice proposal) = true) :
    apply_user_choices plan proposal choices =
      { itinerary := renumFrom 1 plan.itinerary, totals := plan.totals } := by
  unfold apply_user_choices
  rw [map_applyItem_of_noOp h]

/-- Witness for C1 at a concrete plan, proposal with one candidate holding
one alternative, and choices that select `-1` for index 2 and the
out-of-range `5` for index 3. -/
theorem apply_user_choices_noop_witness :
    ([{ index := some 2, choice := some (-1) },
      { index := some 3, choice := some 5 }] : List Choice).all
        (noOpChoice
          { meta := default,
            candidates :=
              [{ index := some 2, original := default,
                 alternatives := [default] },
               { index := some 3, original := default,
                 alternatives := [default] }],
            kept := [] }) = true ∧
    apply_user_choices
        { itinerary :=
            [{ index := some 2, type := some "place", title := some "a",
               description := none, start_time := none, end_time := none,
               place_id := none, lat := none, lng := none, rating := none },
             { index := some 3, type := some "place", title := some "b",
               description := none, start_time := none, end_time := none,
               place_id := none, lat := none, lng := none, rating := none }],
          totals := [("budget", 10)] }
        { meta := default,
          candidates :=
            [{ index := some 2, original := default,
               alternatives := [default] },
             { index := some 3, original := default,
               alternatives := [default] }],
          kept := [] }
        [{ index := some 2, choice := some (-1) },
         { index := some 3, choice := some 5 }] =
      { itinerary :=
          renumFrom 1
            [{ index := some 2, type := some "place", title := some "a",
               description := none, start_time := none, end_time := none,
               place_id := none, lat := none, lng := none, rating := none },
             { index := some 3, type := some "place", title := some "b",
               description := none, start_time := none, end_time := none,
               place_id := none, lat := none, lng := none, rating := none }],
        totals := [("budget", 10)] } :=
  ⟨by decide, apply_user_choices_noop _ _ _ (by decide)⟩

/-- C2 (amended): for every proposal built by `build_rain_change_proposal`
with a non-negative `top_k`, within each candidate the alternatives list is
sorted non-decreasing by `distance_km` and its length is at most `top_k`. -/
theorem build_alternatives_sorted_bounded (env : Env) (plan : Plan)
    (is_rainy : Bool) (center_coords : Option String)
    (rainy_dates protect_titles : List String) (radius_km_for_alt : ℚ)
    (indoor_keywords : Option (List String)) (top_k : Int)
    (max_distance_km : Option ℚ) (hk : 0 ≤ top_k) :
    ∀ c ∈ (build_rain_change_proposal env plan is_rainy center_coords
        rainy_dates protect_titles radius_km_for_alt indoor_keywords top_k
        max_distance_km).candidates,
      List.Sorted altLE c.alternatives ∧
        (c.alternatives.length : Int) ≤ top_k := by
  intro c hc
  obtain ⟨vc, heq⟩ := build_candidate_alternatives env plan is_rainy
    center_coords rainy_dates protect_titles radius_km_for_alt indoor_keywords
    top_k max_distance_km hc
  rw [heq]
  exact ⟨fetch_indoor_alternatives_sorted env vc indoor_keywords
      radius_km_for_alt _ top_k max_distance_km,
    fetch_indoor_alternatives_length env vc indoor_keywords radius_km_for_alt
      _ max_distance_km hk⟩

/-- A two-result search environment used to refute the unrestricted C2 bound
at `top_k = -1`. -/
def rawPlaceA : RawPlace :=
  { name := some "A", lat := some 0, lng := some 0,
    place_id := none, vicinity := none, rating := none }

def rawPlaceB : RawPlace :=
  { name := some "B", lat := some 0, lng := some 0,
    place_id := none, vicinity := none, rating := none }

/-- First itinerary item of the concrete plans: the protected event anchor. -/
def itemFest : Item :=
  { index := some 1, type := some "festival", title := some "축제",
    description := none, start_time := none, end_time := none,
    place_id := none, lat := none, lng := none, rating := none }

/-- Second itinerary item: an unprotected outdoor heritage stop. -/
def itemGyeong : Item :=
  { index := some 2, type := some "place", title := some "경포대",
    description := none, start_time := none, end_time := none,
    place_id := none, lat := none, lng := none, rating := none }

def planC : Plan := { itinerary := [itemFest, itemGyeong], totals := [] }

def envC2 : Env :=
  { trivialEnv with
    get_coords_from_place_name := fun t => if t = "경포대" then some "0,0" else none,
    parseFloatPair := fun s => if s = "0,0" then some (0, 0) else none,
    search_places_nearby := fun _ kw _ => if kw = "k" then [rawPlaceA, rawPlaceB] else [] }

/-- C2 counterexample: with `top_k = -1` (Python slices accept negative
bounds) the built proposal's only candidate carries one alternative, so the
"length at most `top_k`" bound fails. -/
theorem build_topk_counterexample :
    ¬ (∀ c ∈ (build_rain_change_proposal envC2 planC true none [] [] 5
          (some ["k"]) (-1) none).candidates,
        List.Sorted altLE c.alternatives ∧
          (c.alternatives.length : Int) ≤ (-1 : Int)) := by
  decide

/-- Witness for the amended C2 at `top_k = 3` on the same inputs. -/
theorem build_alternatives_sorted_bounded_witness :
    (0 : Int) ≤ 3 ∧
    ∀ c ∈ (build_rain_change_proposal envC2 planC true none [] [] 5
        (some ["k"]) 3 none).candidates,
      List.Sorted altLE c.alternatives ∧ (c.alternatives.length : Int) ≤ 3 :=
  ⟨by decide,
   build_alternatives_sorted_bounded envC2 planC true none [] [] 5 (some ["k"])
     3 none (by decide)⟩

/-- C7 (amended): a title of the input itinerary can appear as an
alternative's title in a built proposal only when the place-details record of
that alternative's (non-empty) place id supplies that exact name: the
duplicate-avoidance check is performed on the search result's summary name
before the detail-record name overrides the stored title. -/
theorem build_itinerary_title_only_from_details (env : Env) (plan : Plan)
    (is_rainy : Bool) (center_coords : Option String)
    (rainy_dates protect_titles : List String) (radius_km_for_alt : ℚ)
    (indoor_keywords : Option (List String)) (top_k : Int)
    (max_distance_km : Option ℚ) :
    ∀ c ∈ (build_rain_change_proposal env plan is_rainy center_coords
        rainy_dates protect_titles radius_km_for_alt indoor_keywords top_k
        max_distance_km).candidates,
      ∀ a ∈ c.alternatives, ∀ t, a.title = some t →
        t ∈ plan.itinerary.map (fun it => it.title.getD "") →
        ∃ p, a.place_id = some p ∧ p ≠ "" ∧
          ∃ d, env.get_place_details p = some d ∧ d.name = some t := by
  intro c hc a ha t ht hmem
  obtain ⟨vc, heq⟩ := build_candidate_alternatives env plan is_rainy
    center_coords rainy_dates protect_titles radius_km_for_alt indoor_keywords
    top_k max_distance_km hc
  rw [heq] at ha
  exact fetch_indoor_alternatives_detailNamedOnly env vc indoor_keywords
    radius_km_for_alt _ top_k max_distance_km a ha t ht hmem

/-- A search result whose summary name differs from its detail-record name;
the detail record's name collides with an itinerary title. -/
def rawPlaceP : RawPlace :=
  { name := some "실내전시관", lat := some 0, lng := some 0,
    place_id := some "p1", vicinity := none, rating := none }

def detailsP : PlaceDetails :=
  { name := some "경포대", formatted_address := none, rating := none,
    types := [] }

def envC7 : Env :=
  { trivialEnv with
    get_coords_from_place_name := fun t => if t = "경포대" then some "0,0" else none,
    parseFloatPair := fun s => if s = "0,0" then some (0, 0) else none,
    search_places_nearby := fun _ kw _ => if kw = "k" then [rawPlaceP] else [],
    get_place_details := fun p => if p = "p1" then some detailsP else none }

/-- C7 counterexample: the built proposal stores an alternative whose title
equals the title of an itinerary item ("경포대"), because the avoid-duplicate
check ran on the summary name "실내전시관" while the stored title came from
the detail record. -/
theorem build_avoid_dup_counterexample :
    ∃ c ∈ (build_rain_change_proposal envC7 planC true none [] [] 5
        (some ["k"]) 3 none).candidates,
      ∃ a ∈ c.alternatives, ∃ it ∈ planC.itinerary,
        it.title = a.title ∧ a.title ≠ none := by
  decide

/-- The alternative assembled by `fetch_indoor_alternatives` in the `envC7`
scenario. -/
def altC7 : Alternative :=
  { title := some "경포대", address := some "정보 없음", place_id := some "p1",
    lat := some 0, lng := some 0, rating := none, type := some "place",
    distance_km := 0 }

/-- The candidate entry built for the second itinerary item in the `envC7`
scenario. -/
def candC7 : PropCandidate :=
  { index := some 2, original := mkOriginalInfo itemGyeong,
    alternatives := [altC7] }

/-- Witness for the amended C7: at the concrete collision, the colliding
title is indeed supplied by the detail record of place id "p1". -/
theorem build_itinerary_title_only_from_details_witness :
    ∃ p, altC7.place_id = some p ∧ p ≠ "" ∧
      ∃ d, envC7.get_place_details p = some d ∧ d.name = some "경포대" :=
  build_itinerary_title_only_from_details envC7 planC true none [] [] 5
    (some ["k"]) 3 none candC7 (by decide) altC7 (by decide) "경포대"
    (by decide) (by decide)

/-- C3: for every itinerary, `collect_rain_change_candidates` with
`is_rainy = False` returns no candidates and one kept record per itinerary
item, each with reason "not_rainy". -/
theorem collect_not_rainy (env : Env) (plan : Plan)
    (rainy_dates protect_titles : List String) :
    collect_rain_change_candidates env plan false rainy_dates protect_titles =
      ([], plan.itinerary.map (fun it => ⟨it.index, it.title, "not_rainy"⟩)) :=
  rfl

/-- C10: for every plan, proposal and choices list, `apply_user_choices`
carries the totals record over unchanged, returns exactly as many items as
the input in the same display order, and every output item keeps the
corresponding input item's `start_time` and `end_time`. -/
theorem apply_user_choices_frame (plan : Plan) (proposal : Proposal)
    (choices : List Choice) :
    (apply_user_choices plan proposal choices).totals = plan.totals ∧
    (apply_user_choices plan proposal choices).itinerary.length =
      plan.itinerary.length ∧
    (apply_user_choices plan proposal choices).itinerary.map itemTimes =
      plan.itinerary.map itemTimes := by
  refine ⟨rfl, ?_, ?_⟩
  · unfold apply_user_choices
    simp [renumFrom_length]
  · unfold apply_user_choices
    simp only []
    rw [renumFrom_map_itemTimes, map_itemTimes_applyItem]

/-- C8 (amended): for every item whose (normalised) type is not parking,
cafe or restaurant, if `_looks_outdoor`'s place-id resolution succeeds and
the detail record's lowercased category tags intersect the code's outdoor
set — park, campground, zoo, RV park, natural feature, tourist attraction,
amusement park — then `_looks_outdoor` returns true. -/
theorem looksOutdoor_of_outdoor_types (env : Env) (item : Item) (p : String)
    (d : PlaceDetails)
    (hty : lc item.type ∉ ["parking", "cafe", "restaurant"])
    (hpid : looksOutdoorResolvedPid env item = some p)
    (hd : env.get_place_details p = some d)
    (hhit : OUTDOOR_PLACE_TYPES.any
        (fun t => (d.types.map pyLower).contains t) = true) :
    looksOutdoor env item = true := by
  unfold looksOutdoor
  rw [if_neg hty]
  cases hh : titleLooksHeritage (item.title.getD "") with
  | true => simp [hh]
  | false =>
    simp [hh, hpid, hd]
    left
    simpa using hhit

/-- Witness environment for the amended C8: a resolvable place whose detail
tags contain "park". -/
def details8w : PlaceDetails :=
  { name := none, formatted_address := none, rating := none,
    types := ["park"] }

def env8w : Env :=
  { trivialEnv with
    get_place_details := fun p => if p = "pk1" then some details8w else none }

def item8w : Item :=
  { index := some 3, type := some "place", title := some "warehouse 9",
    description := none, start_time := none, end_time := none,
    place_id := some "pk1", lat := none, lng := none, rating := none }

/-- Witness for the amended C8. -/
theorem looksOutdoor_of_outdoor_types_witness :
    looksOutdoor env8w item8w = true :=
  looksOutdoor_of_outdoor_types env8w item8w "pk1" details8w (by decide)
    (by decide) (by decide) (by decide)

/-- Modelled from the spec's words, for refinement comparison only: the
outdoor category set that the spec claims ("park, campground, zoo, natural
feature, tourist attraction, amusement park, places of worship"), written in
the directory's tag form. -/
def SPEC_OUTDOOR_PLACE_TYPES : List String :=
  ["park", "campground", "zoo", "natural_feature", "tourist_attraction",
   "amusement_park", "place_of_worship"]

def details8 : PlaceDetails :=
  { name := none, formatted_address := none, rating := none,
    types := ["place_of_worship"] }

def env8 : Env :=
  { trivialEnv with
    get_place_details := fun p => if p = "pw1" then some details8 else none }

def item8 : Item :=
  { index := some 3, type := some "place", title := some "temple a",
    description := none, start_time := none, end_time := none,
    place_id := some "pw1", lat := none, lng := none, rating := none }

/-- C8 counterexample: an item of unexcluded type resolving to a place whose
tags intersect the spec's claimed outdoor set (via "place_of_worship") for
which `_looks_outdoor` nevertheless returns false — the code's set contains
"rv_park" but no places-of-worship tag. -/
theorem looksOutdoor_spec_types_counterexample :
    lc item8.type ∉ ["parking", "cafe", "restaurant"] ∧
    looksOutdoorResolvedPid env8 item8 = some "pw1" ∧
    env8.get_place_details "pw1" = some details8 ∧
    SPEC_OUTDOOR_PLACE_TYPES.any
      (fun t => (details8.types.map pyLower).contains t) = true ∧
    looksOutdoor env8 item8 = false := by
  decide

/-- C5: the first `rain_check` call for a fresh session id stores the
submitted plan as `original_plan`; no sequence of further check,
apply-choice, llm-apply, rollback or reset calls (on any session ids)
changes it, and a `rain_reset` then returns that plan and leaves the session
with `plan` equal to it, an empty history and no proposal. -/
theorem session_reset_restores_first_check (st : Store) (sid : String)
    (plan : Plan) (proposal : Option Proposal) (ops : List Op)
    (hfresh : lookupStore st sid = none) :
    ∃ s, lookupStore (ops.foldl runOp (rainCheckStore st sid plan proposal))
        sid = some s ∧
      s.original_plan = plan ∧
      (rainReset (ops.foldl runOp (rainCheckStore st sid plan proposal))
          sid).2 = Except.ok plan ∧
      ∃ s2, lookupStore
          (rainReset (ops.foldl runOp (rainCheckStore st sid plan proposal))
            sid).1 sid = some s2 ∧
        s2.plan = plan ∧ s2.history = [] ∧ s2.proposal = none ∧
        s2.original_plan = plan := by
  have h0 : lookupStore (rainCheckStore st sid plan proposal) sid =
      some { plan := plan, proposal := proposal, original_plan := plan,
             history := [] } := by
    unfold rainCheckStore
    rw [hfresh]
    exact lookupStore_insert st sid _
  obtain ⟨s, hs, ho⟩ := foldl_runOp_preserves_original ops _ _ h0
  refine ⟨s, hs, ho, ?_, ?_⟩
  · unfold rainReset
    simp only [hs, ho]
  · unfold rainReset
    simp only [hs]
    exact ⟨_, lookupStore_insert _ sid _, ho, rfl, rfl, ho⟩

/-- Witness for C5: a fresh session on the empty store, followed by an
apply-choice attempt and a rollback attempt. -/
theorem session_reset_restores_first_check_witness :
    ∃ s, lookupStore
        ([Op.applyChoice "s" 0 0, Op.rollback "s"].foldl runOp
          (rainCheckStore [] "s" planC none)) "s" = some s ∧
      s.original_plan = planC ∧
      (rainReset
          ([Op.applyChoice "s" 0 0, Op.rollback "s"].foldl runOp
            (rainCheckStore [] "s" planC none)) "s").2 = Except.ok planC ∧
      ∃ s2, lookupStore
          (rainReset
            ([Op.applyChoice "s" 0 0, Op.rollback "s"].foldl runOp
              (rainCheckStore [] "s" planC none)) "s").1 "s" = some s2 ∧
        s2.plan = planC ∧ s2.history = [] ∧ s2.proposal = none ∧
        s2.original_plan = planC :=
  session_reset_restores_first_check [] "s" planC none
    [Op.applyChoice "s" 0 0, Op.rollback "s"] rfl

/-- When the items already carry the dense 1-based indices the renumbering
loop would assign, the in-place mutation observed by the history snapshot is
the identity. -/
theorem aliasMutLoop_canonical (proposal : Proposal) (choices : List Choice) :
    ∀ (l : List Item) (n : Int),
      (∀ i (hi : i < l.length), (l.get ⟨i, hi⟩).index = some (n + (i : Int))) →
      aliasMutLoop proposal choices n l = l
  | [], _, _ => rfl
  | it :: rest, n, hidx => by
    have h0 : it.index = some n := by
      have h := hidx 0 (by simp)
      simpa using h
    have hrest : ∀ i (hi : i < rest.length),
        (rest.get ⟨i, hi⟩).index = some ((n + 1) + (i : Int)) := by
      intro i hi
      have h := hidx (i + 1) (by simpa using Nat.succ_lt_succ hi)
      simp only [List.get_cons_succ] at h
      rw [h]
      congr 1
      push_cast
      ring
    unfold aliasMutLoop
    rw [aliasMutLoop_canonical proposal choices rest (n + 1) hrest]
    split
    · rfl
    · rw [← h0]

theorem planAfterAliasMutation_canonical (proposal : Proposal)
    (choices : List Choice) (plan : Plan)
    (hidx : ∀ i (hi : i < plan.itinerary.length),
      (plan.itinerary.get ⟨i, hi⟩).index = some (1 + (i : Int))) :
    planAfterAliasMutation plan proposal choices = plan := by
  unfold planAfterAliasMutation
  rw [aliasMutLoop_canonical proposal choices plan.itinerary 1 hidx]

/-- C6 (amended): for a session whose current plan carries the dense 1-based
display indices, a rollback right after one successful apply-choice restores
the pre-apply itinerary exactly and pops the history entry, leaving proposal
and original plan untouched; and a rollback on an empty history fails with
the "no history" error and leaves the whole store unchanged.  (Without the
dense-index premise the snapshot pushed by apply-choice is already mutated by
the in-place renumbering, so rollback does not restore the pre-apply plan.) -/
theorem rollback_after_apply (st : Store) (sid : String) (s : Session)
    (hs : lookupStore st sid = some s) :
    (s.history = [] →
      rainRollback st sid = (st, Except.error "no history to rollback")) ∧
    (∀ (ci ai : Int) (st' : Store) (p : Plan),
      (∀ i (hi : i < s.plan.itinerary.length),
        (s.plan.itinerary.get ⟨i, hi⟩).index = some (1 + (i : Int))) →
      rainApplyChoice st sid ci ai = (st', Except.ok p) →
      (rainRollback st' sid).2 = Except.ok s.plan ∧
      ∃ s2, lookupStore (rainRollback st' sid).1 sid = some s2 ∧
        s2.plan = s.plan ∧ s2.history = s.history ∧
        s2.proposal = s.proposal ∧ s2.original_plan = s.original_plan) := by
  constructor
  · intro hh
    unfold rainRollback
    simp only [hs, hh]
    rfl
  · intro ci ai st' p hcanon happly
    unfold rainApplyChoice at happly
    simp only [hs] at happly
    split at happly
    · exact absurd (congrArg Prod.snd happly) (by simp)
    · split at happly
      · exact absurd (congrArg Prod.snd happly) (by simp)
      · split at happly
        · exact absurd (congrArg Prod.snd happly) (by simp)
        · split at happly
          · exact absurd (congrArg Prod.snd happly) (by simp)
          · have hst' := (congrArg Prod.fst happly).symm
            simp only [] at hst'
            rw [planAfterAliasMutation_canonical _ _ _ hcanon] at hst'
            subst hst'
            unfold rainRollback
            rw [lookupStore_insert]
            simp only [List.getLast?_concat, List.dropLast_concat]
            refine ⟨?_, _, lookupStore_insert _ sid _, ?_, ?_, ?_, ?_⟩ <;>
              first
              | rfl
              | trivial

/-- A proposal alternative used by the concrete session scenarios. -/
def alt6 : Alternative :=
  { title := some "시립박물관", address := some "addr", place_id := some "q1",
    lat := some 1, lng := some 1, rating := none, type := some "place",
    distance_km := 0 }

def cand6 : PropCandidate :=
  { index := some 2, original := mkOriginalInfo itemGyeong,
    alternatives := [alt6] }

def prop6 : Proposal :=
  { meta := default, candidates := [cand6], kept := [] }

/-- A session over the canonical two-item plan (indices 1, 2) holding one
proposal candidate for item 2 with one alternative. -/
def sess6 : Session :=
  { plan := planC, proposal := some prop6, original_plan := planC,
    history := [] }

def st6 : Store := [("s", sess6)]

/-- The plan produced by applying alternative 0 of candidate 0 on `st6`. -/
def newPlan6 : Plan :=
  { itinerary :=
      [itemFest,
       { index := some 2, type := some "place", title := some "시립박물관",
         description := some "우천 대안 적용 · 주소: addr", start_time := none,
         end_time := none, place_id := some "q1", lat := some 1, lng := some 1,
         rating := none }],
    totals := [] }

/-- Witness for the amended C6 on the canonical session `st6`. -/
theorem rollback_after_apply_witness :
    rainRollback st6 "s" = (st6, Except.error "no history to rollback") ∧
    (rainRollback (rainApplyChoice st6 "s" 0 0).1 "s").2 =
      Except.ok planC ∧
    ∃ s2, lookupStore (rainRollback (rainApplyChoice st6 "s" 0 0).1 "s").1
        "s" = some s2 ∧
      s2.plan = planC ∧ s2.history = [] ∧ s2.proposal = some prop6 ∧
      s2.original_plan = planC := by
  have h := rollback_after_apply st6 "s" sess6 rfl
  have h2 := h.2 0 0 (rainApplyChoice st6 "s" 0 0).1 newPlan6 (by decide)
    (by decide)
  exact ⟨h.1 rfl, h2.1, h2.2⟩

/-- Item literals for a session whose plan indices are not the dense 1..N
sequence. -/
def item5 : Item :=
  { index := some 5, type := some "festival", title := some "A",
    description := none, start_time := none, end_time := none,
    place_id := none, lat := none, lng := none, rating := none }

def item7 : Item :=
  { index := some 7, type := some "place", title := some "B",
    description := none, start_time := none, end_time := none,
    place_id := none, lat := none, lng := none, rating := none }

def plan57 : Plan := { itinerary := [item5, item7], totals := [] }

def prop57 : Proposal :=
  { meta := default,
    candidates :=
      [{ index := some 7, original := mkOriginalInfo item7,
         alternatives := [alt6] }],
    kept := [] }

def sess57 : Session :=
  { plan := plan57, proposal := some prop57, original_plan := plan57,
    history := [] }

def st57 : Store := [("s", sess57)]

/-- The value actually snapshotted into history on `st57`: the kept item was
renumbered in place before the snapshot, the replaced item's original dict
kept its old index. -/
def mutatedPlan57 : Plan :=
  { itinerary := [{ item5 with index := some 1 }, item7], totals := [] }

/-- C6 counterexample: on a session whose plan carries indices 5 and 7, the
apply-choice succeeds, yet the subsequent rollback returns the in-place
renumbered snapshot, not the pre-apply itinerary: `apply_user_choices`
renumbers the shared item dicts before `rain_apply_choice` deep-copies the
current plan into history. -/
theorem rollback_after_apply_counterexample :
    ((rainApplyChoice st57 "s" 0 0).2).isOk = true ∧
    (rainRollback (rainApplyChoice st57 "s" 0 0).1 "s").2 =
      Except.ok mutatedPlan57 ∧
    mutatedPlan57 ≠ plan57 := by
  decide

/-- C9 (amended): an apply-choice request whose `candidate_index` is at
least the number of proposal candidates, or whose selected candidate exists
but whose `alternative_index` is at least that candidate's number of
alternatives, is rejected with an out-of-range error and the store is left
unchanged.  (Negative indices are not covered: Python resolves them from the
end of the list, and an `alternative_index` below `-len` raises only after
the plan and history have already been updated.) -/
theorem apply_choice_out_of_range_rejected (st : Store) (sid : String)
    (s : Session) (ci ai : Int) (hs : lookupStore st sid = some s)
    (hoor : ((s.proposal.getD emptyProposal).candidates.length : Int) ≤ ci ∨
      ∃ cand, pyGet (s.proposal.getD emptyProposal).candidates ci =
          some cand ∧ (cand.alternatives.length : Int) ≤ ai) :
    rainApplyChoice st sid ci ai =
        (st, Except.error "candidate_index out of range") ∨
      rainApplyChoice st sid ci ai =
        (st, Except.error "alternative_index out of range") := by
  unfold rainApplyChoice
  simp only [hs]
  by_cases h1 : ((s.proposal.getD emptyProposal).candidates.length : Int) ≤ ci
  · left
    rw [if_pos h1]
  · rcases hoor with h1' | ⟨cand, hget, hlen⟩
    · exact absurd h1' h1
    · right
      rw [if_neg h1]
      simp only [hget]
      rw [if_pos hlen]

/-- Witness for the amended C9: `alternative_index = 5` against a candidate
with one alternative is rejected and the store is untouched. -/
theorem apply_choice_out_of_range_rejected_witness :
    rainApplyChoice st6 "s" 0 5 =
        (st6, Except.error "candidate_index out of range") ∨
      rainApplyChoice st6 "s" 0 5 =
        (st6, Except.error "alternative_index out of range") :=
  apply_choice_out_of_range_rejected st6 "s" sess6 0 5 rfl
    (Or.inr ⟨cand6, by decide, by decide⟩)

/-- C9 counterexample: `alternative_index = -2` is out of range for the one
stored alternative, and the request does fail with an error (the uncaught
`IndexError` while building the response), but only after the session state
was mutated: the history has grown from zero to one entry. -/
theorem apply_choice_out_of_range_counterexample :
    (rainApplyChoice st6 "s" 0 (-2)).2 = Except.error "IndexError" ∧
    (lookupStore (rainApplyChoice st6 "s" 0 (-2)).1 "s").map
        (fun s => s.history.length) = some 1 ∧
    (lookupStore st6 "s").map (fun s => s.history.length) = some 0 := by
  decide

/-- C4: for every non-empty itinerary, when `is_rainy` is true the first
item lands in `kept` (as its first record) with reason
"protected:first_item", regardless of the item's content. -/
theorem collect_first_item_protected (env : Env) (plan : Plan)
    (rainy_dates protect_titles : List String) (item : Item) (rest : List Item)
    (h : plan.itinerary = item :: rest) :
    (collect_rain_change_candidates env plan true rainy_dates
        protect_titles).2.head? =
      some ⟨item.index, item.title, "protected:first_item"⟩ := by
  unfold collect_rain_change_candidates
  rw [h]
  simp only [Bool.not_true, cond_false]
  unfold collectLoop
  simp [isProtectedReason]

/-- Witness for C4 at a one-item itinerary. -/
theorem collect_first_item_protected_witness :
    ({ itinerary :=
         [{ index := some 1, type := some "place", title := some "경포대",
            description := none, start_time := none, end_time := none,
            place_id := none, lat := none, lng := none, rating := none }],
       totals := [] } : Plan).itinerary =
      [{ index := some 1, type := some "place", title := some "경포대",
         description := none, start_time := none, end_time := none,
         place_id := none, lat := none, lng := none, rating := none }] ∧
    (collect_rain_change_candidates trivialEnv
        { itinerary :=
            [{ index := some 1, type := some "place", title := some "경포대",
               description := none, start_time := none, end_time := none,
               place_id := none, lat := none, lng := none, rating := none }],
          totals := [] } true [] []).2.head? =
      some ⟨some 1, some "경포대", "protected:first_item"⟩ :=
  ⟨rfl, collect_first_item_protected trivialEnv _ [] [] _ [] rfl⟩

end Pln
